import Mathlib

/-!
Verification of the service dispatch core of the home_service_collection
repository (files service/ServiceBase/message.py and
service/ServiceBase/service_base.py), as a shallow embedding.

Modelling conventions:
  - JSON values are `JVal`; a decoded wire object is a `Dict`
    (an association list with string keys, Python dict semantics:
    lookup finds the binding, assignment replaces it in place or appends).
  - Python code that raises an uncaught exception (KeyError on a missing
    dict field, ValueError from int coercion) is modelled as `none`
    from the decoders, and as `raised = true` in a `DispatchResult`.
  - Handlers are modelled by the `Handler` type: a user request handler is
    a pure function from the decoded message to its optional payload; a
    user report handler is an opaque side-effecting callable identified by
    a numeric tag; the lambda registered by `run` that calls the service
    shutdown hook is a dedicated constructor.  Observable side effects
    (publishes, handler/callback/shutdown-hook invocations) are recorded
    as an `Event` trace in program order.
  - Response callbacks stored in the pending-request table are void
    side-effecting callables, modelled as numeric tags; their invocation
    is the event `cbInvoked`.
  - The redis client, json serialization and threading are external
    collaborators: `publish` is recorded as an event carrying the channel
    and the unserialized dict, and the dispatcher receives the already
    json-decoded object.
-/

/-- JSON values as Python sees them after json.loads. -/
inductive JVal where
  | null
  | b (x : Bool)
  | num (n : Int)
  | str (s : String)
  | arr (xs : List JVal)
  | obj (fields : List (String × JVal))

/-- A decoded top-level JSON object: what Python passes around as a dict. -/
abbrev Dict := List (String × JVal)

mutual

/-- Structural equality of JSON values: Python `==` on json.loads results. -/
def JVal.beq : JVal → JVal → Bool
  | .null, .null => true
  | .b x, .b y => x == y
  | .num x, .num y => x == y
  | .str x, .str y => x == y
  | .arr xs, .arr ys => JVal.beqList xs ys
  | .obj xs, .obj ys => JVal.beqFields xs ys
  | _, _ => false

/-- Elementwise equality of JSON arrays. -/
def JVal.beqList : List JVal → List JVal → Bool
  | [], [] => true
  | x :: xs, y :: ys => JVal.beq x y && JVal.beqList xs ys
  | _, _ => false

/-- Elementwise equality of JSON object field lists. -/
def JVal.beqFields : List (String × JVal) → List (String × JVal) → Bool
  | [], [] => true
  | (k1, v1) :: xs, (k2, v2) :: ys => k1 == k2 && JVal.beq v1 v2 && JVal.beqFields xs ys
  | _, _ => false

end

/-- Python int(x) coercion on a JSON value: succeeds on numbers, booleans
and integer-formatted strings, raises (none) otherwise. -/
def JVal.toInt : JVal → Option Int
  | .num n => some n
  | .b x => some (if x then 1 else 0)
  | .str s => s.toInt?
  | .null => none
  | .arr _ => none
  | .obj _ => none

/-- Python `d.get(k)` / `d[k]` on a string-keyed dict (KeyError is the
`none` of the caller's match). -/
def alistGet {α : Type} (l : List (String × α)) (k : String) : Option α :=
  match l with
  | [] => none
  | p :: t => if p.1 = k then some p.2 else alistGet t k

/-- Python `d[k] = v` on a string-keyed dict: replace the existing binding
in place, else append. -/
def alistSet {α : Type} (l : List (String × α)) (k : String) (v : α) : List (String × α) :=
  match l with
  | [] => [(k, v)]
  | p :: t => if p.1 = k then (k, v) :: t else p :: alistSet t k v

/-- Python `d.get(k)` on a dict keyed by arbitrary JSON values (the
pending-request table is keyed by correlation ids). -/
def jalistGet {α : Type} (l : List (JVal × α)) (k : JVal) : Option α :=
  match l with
  | [] => none
  | p :: t => if JVal.beq p.1 k then some p.2 else jalistGet t k

/-- Python `d[k] = v` on a JVal-keyed dict. -/
def jalistSet {α : Type} (l : List (JVal × α)) (k : JVal) (v : α) : List (JVal × α) :=
  match l with
  | [] => [(k, v)]
  | p :: t => if JVal.beq p.1 k then (k, v) :: t else p :: jalistSet t k v

/-- Python `del d[k]` on a JVal-keyed dict: the binding for k disappears
(dict keys are unique, so removing every matching binding is the same). -/
def jalistDel {α : Type} (l : List (JVal × α)) (k : JVal) : List (JVal × α) :=
  l.filter (fun p => !(JVal.beq p.1 k))

/-- Decoded common message header (message.py, class Message): the
constructor reads id, origin, topic, name and data with mandatory
indexing, so each is required. -/
structure Message where
  id : JVal
  origin : JVal
  topic : JVal
  name : JVal
  data : JVal

/-- Message.__init__(raw): KeyError on any missing field is `none`. -/
def Message.decode (raw : Dict) : Option Message :=
  match alistGet raw "id", alistGet raw "origin", alistGet raw "topic",
        alistGet raw "name", alistGet raw "data" with
  | some i, some o, some t, some n, some d => some ⟨i, o, t, n, d⟩
  | _, _, _, _, _ => none

/-- class Report(Message): pass -/
abbrev Report := Message

/-- class Request(Message): pass -/
abbrev Request := Message

/-- Decoded Response (message.py, class Response): the header fields plus
`status` coerced with int(...) and `error` read with .get (so a missing
`error` is the same as a JSON null, exactly as in Python where both give
None). -/
structure Response where
  id : JVal
  origin : JVal
  topic : JVal
  name : JVal
  data : JVal
  status : Int
  err : JVal

/-- Response.__init__(raw): Message.__init__ first, then
int(raw_response["status"]) (KeyError or ValueError is `none`), then
raw_response.get("error"). -/
def Response.decode (raw : Dict) : Option Response :=
  match Message.decode raw with
  | none => none
  | some m =>
    match (alistGet raw "status").bind JVal.toInt with
    | none => none
    | some st => some ⟨m.id, m.origin, m.topic, m.name, m.data, st, (alistGet raw "error").getD .null⟩

/-- A callable stored in a handler registry. -/
inductive Handler where
  | reqFn (f : Message → Option JVal)
  | repTag (tag : Nat)
  | shutdownLambda

/-- Observable side effects, in program order. -/
inductive Event where
  | publish (channel : Option String) (payload : Dict)
  | shutdownInvoked
  | repInvoked (tag : Nat)
  | cbInvoked (cb : Nat) (resp : Response)

/-- Calling a stored handler on a decoded message: its return value (the
optional payload) and its observable side effects.  The lambda installed
by run is `lambda _: self.shutdown()`: it runs the shutdown hook and
returns None; an opaque report handler returns None. -/
def Handler.invoke : Handler → Message → Option JVal × List Event
  | .reqFn f, m => (f m, [])
  | .repTag t, _ => (none, [Event.repInvoked t])
  | .shutdownLambda, _ => (none, [Event.shutdownInvoked])

/-- A two-level handler registry: topic to (name to handler), both levels
Python dicts. -/
abbrev Registry := List (String × List (String × Handler))

/-- The module constant _CONTROLLER_CHANEL of service_base.py. -/
def CONTROLLER_CHANEL : String := "service:controller"

/-- The mutable state of a ServiceBase instance.  __init__ leaves
_service_channel as None until configure sets it; host, port and the
redis client are connection management, outside the dispatch core. -/
structure ServiceBase where
  service_channel : Option String := none
  request_handlers : Registry := []
  report_handlers : Registry := []
  service_name : String := "ServiceBase"
  awaiting_requests : List (JVal × Nat) := []

/-- Looking a decoded JSON value up among the string keys of a dict:
Python `k in d` / `d.get(k)` where k came off the wire. -/
def skeyGet {α : Type} (l : List (String × α)) (k : JVal) : Option α :=
  match l with
  | [] => none
  | p :: t => if JVal.beq (.str p.1) k then some p.2 else skeyGet t k

/-- ServiceBase._find_handler(topic, name, handlers): None when the topic
is absent, else handlers[topic].get(name). -/
def find_handler (topic name : JVal) (handlers : Registry) : Option Handler :=
  match skeyGet handlers topic with
  | none => none
  | some inner => skeyGet inner name

/-- The body of ServiceBase._register_handler on one registry:
dest[topic][name] = handler when topic is present, else
dest[topic] = a fresh one-entry dict. -/
def registerIn (dest : Registry) (topic name : String) (handler : Handler) : Registry :=
  match alistGet dest topic with
  | some inner => alistSet dest topic (alistSet inner name handler)
  | none => alistSet dest topic [(name, handler)]

/-- ServiceBase._register_handler(topic, name, is_request, handler):
the boolean picks the registry. -/
def ServiceBase.register_handler (s : ServiceBase) (topic name : String)
    (is_request : Bool) (handler : Handler) : ServiceBase :=
  if is_request then
    { s with request_handlers := registerIn s.request_handlers topic name handler }
  else
    { s with report_handlers := registerIn s.report_handlers topic name handler }

/-- The registry that _register_handler and _find_handler use for a given
kind (`dest = self._request_handlers if is_request else self._report_handlers`). -/
def ServiceBase.registry_for (s : ServiceBase) (is_request : Bool) : Registry :=
  if is_request then s.request_handlers else s.report_handlers

/-- The outbound report dict built by ServiceBase.report: type, topic,
name, origin, data — note: no id. -/
def ServiceBase.report_payload (s : ServiceBase) (topic name : String) (payload : JVal) : Dict :=
  [("type", .str "report"), ("topic", .str topic), ("name", .str name),
   ("origin", .str s.service_name), ("data", payload)]

/-- ServiceBase.report(topic, name, payload): publish the report dict on
the shared controller channel.  State is untouched. -/
def ServiceBase.report (s : ServiceBase) (topic name : String) (payload : JVal) : List Event :=
  [Event.publish (some CONTROLLER_CHANEL) (s.report_payload topic name payload)]

/-- The outbound request dict built by ServiceBase.request: a fresh id
(uuid generation is external, so the id is a parameter), the literal wire
tag type = report as in the source, topic, name, origin, and data only
when the payload is not None. -/
def ServiceBase.request_payload (s : ServiceBase) (rid : JVal) (topic name : String)
    (payload : Option JVal) : Dict :=
  let req : Dict := [("id", rid), ("type", .str "report"), ("topic", .str topic),
                     ("name", .str name), ("origin", .str s.service_name)]
  match payload with
  | some p => req ++ [("data", p)]
  | none => req

/-- ServiceBase.request(topic, name, handler, payload): store the callback
in the pending table under the fresh id, then publish the request dict on
the shared controller channel. -/
def ServiceBase.request (s : ServiceBase) (rid : JVal) (topic name : String)
    (handler : Nat) (payload : Option JVal) : ServiceBase × List Event :=
  ({ s with awaiting_requests := jalistSet s.awaiting_requests rid handler },
   [Event.publish (some CONTROLLER_CHANEL) (s.request_payload rid topic name payload)])

/-- ServiceBase._handle_report(report): look the handler up in the report
registry; when found call it for its side effect only. -/
def ServiceBase.handle_report (s : ServiceBase) (rep : Report) : List Event :=
  match find_handler rep.topic rep.name s.report_handlers with
  | none => []
  | some h => (h.invoke rep).2

/-- The response dict built by ServiceBase._handle_request for a found
handler: id, type = response, topic, name, origin — and data only when
the handler returned a payload.  Note: no status and no error field. -/
def ServiceBase.response_payload (s : ServiceBase) (req : Request)
    (payload : Option JVal) : Dict :=
  let response : Dict := [("id", req.id), ("type", .str "response"), ("topic", req.topic),
                          ("name", req.name), ("origin", .str s.service_name)]
  match payload with
  | some p => response ++ [("data", p)]
  | none => response

/-- ServiceBase._handle_request(request): None when no handler is
registered; otherwise call the handler and return the response dict
(built even when the handler returned None). -/
def ServiceBase.handle_request (s : ServiceBase) (req : Request) : Option Dict × List Event :=
  match find_handler req.topic req.name s.request_handlers with
  | none => (none, [])
  | some h =>
    let r := h.invoke req
    (some (s.response_payload req r.1), r.2)

/-- Outcome of one call of the dispatch entry point: the instance state
when the call ends, the observable side effects in order, and whether an
uncaught exception propagated to the caller. -/
structure DispatchResult where
  state : ServiceBase
  events : List Event
  raised : Bool

/-- ServiceBase._message_handler(redis_message): the single dispatch entry
point.  redis_message is the subscriber record; its type field must be
the literal message, its data field is the json payload (given here
already decoded).  Branches on the payload type tag; unknown tags fall
through silently.  There is no try/except: a KeyError from a missing
type field or from a failing constructor propagates (raised = true). -/
def ServiceBase.message_handler (s : ServiceBase) (redis_type : String)
    (message : Dict) : DispatchResult :=
  if redis_type = "message" then
    match alistGet message "type" with
    | none => ⟨s, [], true⟩
    | some ty =>
      if JVal.beq ty (.str "request") then
        match Message.decode message with
        | none => ⟨s, [], true⟩
        | some req =>
          let r := s.handle_request req
          match r.1 with
          | some resp => ⟨s, r.2 ++ [Event.publish s.service_channel resp], false⟩
          | none => ⟨s, r.2, false⟩
      else if JVal.beq ty (.str "report") then
        match Message.decode message with
        | none => ⟨s, [], true⟩
        | some rep => ⟨s, s.handle_report rep, false⟩
      else if JVal.beq ty (.str "response") then
        match Response.decode message with
        | none => ⟨s, [], true⟩
        | some resp =>
          match jalistGet s.awaiting_requests resp.id with
          | none => ⟨s, [], false⟩
          | some cb =>
            ⟨{ s with awaiting_requests := jalistDel s.awaiting_requests resp.id },
             [Event.cbInvoked cb resp], false⟩
      else ⟨s, [], false⟩
  else ⟨s, [], false⟩

/-- The bound method self.registered passed as the registration callback,
as a callback tag. -/
def registered_tag : Nat := 0

/-- The registration_data dict built by ServiceBase._register_service:
name, channel, and the topic/names enumeration of both registries. -/
def ServiceBase.registration_data (s : ServiceBase) : JVal :=
  .obj [("name", .str s.service_name),
        ("channel", match s.service_channel with | some c => .str c | none => .null),
        ("requests", .arr (s.request_handlers.map (fun p =>
          .obj [("topic", .str p.1), ("names", .arr (p.2.map (fun q => JVal.str q.1)))]))),
        ("reports", .arr (s.report_handlers.map (fun p =>
          .obj [("topic", .str p.1), ("names", .arr (p.2.map (fun q => JVal.str q.1)))])))]

/-- ServiceBase._register_service: send the self-description as a request
to (system, register) with the registered hook as callback. -/
def ServiceBase.register_service (s : ServiceBase) (reg_id : JVal) : ServiceBase × List Event :=
  s.request reg_id "system" "register" registered_tag (some s.registration_data)

/-- ServiceBase.run, without the broker subscription and thread start
(external): it registers the built-in shutdown handler — with
is_request = False in the source — and then performs the registration
handshake.  The fresh uuid of the registration request is a parameter. -/
def ServiceBase.run (s : ServiceBase) (reg_id : JVal) : ServiceBase × List Event :=
  let s1 := s.register_handler "service" "shutdown" false Handler.shutdownLambda
  s1.register_service reg_id

/-! ## Supporting lemmas -/

theorem alistGet_alistSet_self {α : Type} (l : List (String × α)) (k : String) (v : α) :
    alistGet (alistSet l k v) k = some v := by
  induction l with
  | nil => simp [alistSet, alistGet]
  | cons p t ih =>
    by_cases h : p.1 = k
    · simp [alistSet, alistGet, h]
    · simp [alistSet, alistGet, h, ih]

theorem skeyGet_str {α : Type} (l : List (String × α)) (k : String) :
    skeyGet l (.str k) = alistGet l k := by
  induction l with
  | nil => rfl
  | cons p t ih =>
    by_cases h : p.1 = k
    · simp [skeyGet, alistGet, JVal.beq, h]
    · simp [skeyGet, alistGet, JVal.beq, h, ih]

theorem find_handler_registerIn_self (R : Registry) (t n : String) (h : Handler) :
    find_handler (.str t) (.str n) (registerIn R t n h) = some h := by
  unfold find_handler registerIn
  cases hg : alistGet R t with
  | none => simp [skeyGet_str, alistGet_alistSet_self, alistGet]
  | some inner => simp [skeyGet_str, alistGet_alistSet_self]

theorem jalistGet_jalistDel {α : Type} (l : List (JVal × α)) (k : JVal) :
    jalistGet (jalistDel l k) k = none := by
  induction l with
  | nil => rfl
  | cons p t ih =>
    cases h : JVal.beq p.1 k with
    | true => simpa [jalistDel, List.filter_cons, h] using ih
    | false =>
      simpa [jalistDel, List.filter_cons, h, jalistGet] using ih

/-! ## Claims -/

/-- Claim C1, evaluated on the code at the failing input: run registers the
built-in shutdown handler with is_request = False, i.e. into the report
registry, so dispatching a Request with topic service and name shutdown to
a freshly started service finds no request handler: the shutdown hook is
never invoked (and nothing is published).  A report-typed delivery with
the same topic and name, by contrast, does invoke the hook — the flag is
flipped. -/
theorem shutdown_request_never_reaches_hook :
    ServiceBase.message_handler (ServiceBase.run {} (JVal.str "reg-1")).1 "message"
      [("id", JVal.str "42"), ("type", JVal.str "request"), ("topic", JVal.str "service"),
       ("name", JVal.str "shutdown"), ("origin", JVal.str "controller"), ("data", JVal.null)] =
    ⟨(ServiceBase.run {} (JVal.str "reg-1")).1, [], false⟩ ∧
    (ServiceBase.message_handler (ServiceBase.run {} (JVal.str "reg-1")).1 "message"
      [("id", JVal.str "42"), ("type", JVal.str "report"), ("topic", JVal.str "service"),
       ("name", JVal.str "shutdown"), ("origin", JVal.str "controller"), ("data", JVal.null)]).events =
    [Event.shutdownInvoked] :=
  ⟨rfl, rfl⟩

/-- Claim C2: an inbound Request whose (topic, name) has a registered
request handler returning a non-None payload makes the dispatcher publish
exactly one Response dict — reusing the Request's id, topic and name,
with origin the configured service name and data the returned payload —
on the service's own channel, which is not the shared controller
channel. -/
theorem handled_request_publishes_one_response (s : ServiceBase) (ch : String)
    (message : Dict) (req : Request) (f : Message → Option JVal) (payload : JVal)
    (hch : s.service_channel = some ch)
    (hne : ch ≠ CONTROLLER_CHANEL)
    (hty : alistGet message "type" = some (JVal.str "request"))
    (hdec : Message.decode message = some req)
    (hfind : find_handler req.topic req.name s.request_handlers = some (Handler.reqFn f))
    (hpay : f req = some payload) :
    s.message_handler "message" message =
      ⟨s, [Event.publish (some ch)
        [("id", req.id), ("type", JVal.str "response"), ("topic", req.topic),
         ("name", req.name), ("origin", JVal.str s.service_name), ("data", payload)]], false⟩ ∧
    ch ≠ CONTROLLER_CHANEL := by
  refine ⟨?_, hne⟩
  simp [ServiceBase.message_handler, ServiceBase.handle_request, ServiceBase.response_payload,
        Handler.invoke, JVal.beq, hty, hdec, hfind, hpay, hch]

/-- Witness for C2 at a concrete echo service and request. -/
theorem handled_request_publishes_one_response_witness :
    ServiceBase.message_handler
      { service_channel := some "service:sample", service_name := "sample",
        request_handlers := [("sample", [("echo", Handler.reqFn (fun m => some m.data))])] }
      "message"
      [("id", JVal.str "7"), ("type", JVal.str "request"), ("topic", JVal.str "sample"),
       ("name", JVal.str "echo"), ("origin", JVal.str "controller"), ("data", JVal.str "hi")] =
      ⟨{ service_channel := some "service:sample", service_name := "sample",
         request_handlers := [("sample", [("echo", Handler.reqFn (fun m => some m.data))])] },
       [Event.publish (some "service:sample")
        [("id", JVal.str "7"), ("type", JVal.str "response"), ("topic", JVal.str "sample"),
         ("name", JVal.str "echo"), ("origin", JVal.str "sample"), ("data", JVal.str "hi")]], false⟩ ∧
    "service:sample" ≠ CONTROLLER_CHANEL :=
  handled_request_publishes_one_response _ _ _
    ⟨JVal.str "7", JVal.str "controller", JVal.str "sample", JVal.str "echo", JVal.str "hi"⟩
    (fun m => some m.data) (JVal.str "hi") rfl (by decide) rfl rfl rfl rfl

/-- Claim C7: an inbound Request whose (topic, name) has no registered
request handler produces no event at all — zero publishes — and the
dispatcher returns with the state unchanged. -/
theorem unhandled_request_publishes_nothing (s : ServiceBase) (message : Dict) (req : Request)
    (hty : alistGet message "type" = some (JVal.str "request"))
    (hdec : Message.decode message = some req)
    (hnone : find_handler req.topic req.name s.request_handlers = none) :
    s.message_handler "message" message = ⟨s, [], false⟩ := by
  simp [ServiceBase.message_handler, ServiceBase.handle_request, JVal.beq, hty, hdec, hnone]

/-- Witness for C7: a request on an empty registry. -/
theorem unhandled_request_publishes_nothing_witness :
    ServiceBase.message_handler {} "message"
      [("id", JVal.str "7"), ("type", JVal.str "request"), ("topic", JVal.str "sample"),
       ("name", JVal.str "echo"), ("origin", JVal.str "controller"), ("data", JVal.null)] =
      ⟨{}, [], false⟩ :=
  unhandled_request_publishes_nothing {} _
    ⟨JVal.str "7", JVal.str "controller", JVal.str "sample", JVal.str "echo", JVal.null⟩
    rfl rfl rfl

/-- Claim C3: when the pending table holds callback cb under the
correlation id of a decodable inbound Response, dispatching that Response
invokes cb exactly once with the decoded Response and deletes the pending
entry; dispatching the very same delivery again invokes nothing and
leaves the state unchanged. -/
theorem response_resolves_pending_exactly_once (s : ServiceBase) (message : Dict)
    (resp : Response) (cb : Nat)
    (hty : alistGet message "type" = some (JVal.str "response"))
    (hdec : Response.decode message = some resp)
    (hpend : jalistGet s.awaiting_requests resp.id = some cb) :
    s.message_handler "message" message =
      ⟨{ s with awaiting_requests := jalistDel s.awaiting_requests resp.id },
       [Event.cbInvoked cb resp], false⟩ ∧
    ServiceBase.message_handler
      { s with awaiting_requests := jalistDel s.awaiting_requests resp.id }
      "message" message =
      ⟨{ s with awaiting_requests := jalistDel s.awaiting_requests resp.id }, [], false⟩ := by
  constructor
  · simp [ServiceBase.message_handler, JVal.beq, hty, hdec, hpend]
  · simp [ServiceBase.message_handler, JVal.beq, hty, hdec, jalistGet_jalistDel]

/-- Witness for C3: one pending entry, resolved then redelivered. -/
theorem response_resolves_pending_exactly_once_witness :
    ServiceBase.message_handler { awaiting_requests := [(JVal.str "id1", 5)] } "message"
      [("id", JVal.str "id1"), ("type", JVal.str "response"), ("topic", JVal.str "t"),
       ("name", JVal.str "n"), ("origin", JVal.str "ctrl"), ("data", JVal.num 42),
       ("status", JVal.num 0)] =
      ⟨{ awaiting_requests := [] },
       [Event.cbInvoked 5 ⟨JVal.str "id1", JVal.str "ctrl", JVal.str "t", JVal.str "n",
                           JVal.num 42, 0, JVal.null⟩], false⟩ ∧
    ServiceBase.message_handler { awaiting_requests := [] } "message"
      [("id", JVal.str "id1"), ("type", JVal.str "response"), ("topic", JVal.str "t"),
       ("name", JVal.str "n"), ("origin", JVal.str "ctrl"), ("data", JVal.num 42),
       ("status", JVal.num 0)] =
      ⟨{ awaiting_requests := [] }, [], false⟩ :=
  response_resolves_pending_exactly_once _ _
    ⟨JVal.str "id1", JVal.str "ctrl", JVal.str "t", JVal.str "n", JVal.num 42, 0, JVal.null⟩
    5 rfl rfl rfl

/-- Claim C8: a decodable Response whose id is not in the pending table
changes no state and invokes no callback — no events at all. -/
theorem unmatched_response_is_noop (s : ServiceBase) (message : Dict) (resp : Response)
    (hty : alistGet message "type" = some (JVal.str "response"))
    (hdec : Response.decode message = some resp)
    (hpend : jalistGet s.awaiting_requests resp.id = none) :
    s.message_handler "message" message = ⟨s, [], false⟩ := by
  simp [ServiceBase.message_handler, JVal.beq, hty, hdec, hpend]

/-- Witness for C8: a response delivered to an empty pending table. -/
theorem unmatched_response_is_noop_witness :
    ServiceBase.message_handler {} "message"
      [("id", JVal.str "stale"), ("type", JVal.str "response"), ("topic", JVal.str "t"),
       ("name", JVal.str "n"), ("origin", JVal.str "ctrl"), ("data", JVal.null),
       ("status", JVal.num 200)] =
      ⟨{}, [], false⟩ :=
  unmatched_response_is_noop {} _
    ⟨JVal.str "stale", JVal.str "ctrl", JVal.str "t", JVal.str "n", JVal.null, 200, JVal.null⟩
    rfl rfl rfl

/-- Claim C9: registering twice under the same (topic, name, kind) leaves
only the second handler reachable: lookup through the registry that the
kind selects returns the last-registered handler. -/
theorem register_twice_last_wins (s : ServiceBase) (topic name : String) (k : Bool)
    (h1 h2 : Handler) :
    find_handler (JVal.str topic) (JVal.str name)
      (((s.register_handler topic name k h1).register_handler topic name k h2).registry_for k) =
      some h2 := by
  cases k <;>
    simp [ServiceBase.register_handler, ServiceBase.registry_for, find_handler_registerIn_self]

/-- Claim C4 counterexample: a Report payload carrying origin, topic,
name and data but no id fails to decode — Message.__init__ reads
raw["id"] for every kind — where the claim says a Report without id
decodes successfully. -/
theorem report_without_id_fails_to_decode :
    Message.decode [("origin", JVal.str "o"), ("topic", JVal.str "t"),
                    ("name", JVal.str "n"), ("data", JVal.null)] = none := rfl

/-- Claim C4 amended: decoding fails exactly when one of id, origin,
topic, name or data is missing — for every kind, Report included and the
data field included — and for Response additionally when status is
missing or not int-coercible.  The kind discriminator is not checked at
decode time: the dispatcher silently ignores a delivery whose type tag is
none of the three known ones. -/
theorem decode_failure_characterization :
    (∀ raw : Dict, (Message.decode raw).isSome ↔
      ((alistGet raw "id").isSome ∧ (alistGet raw "origin").isSome ∧
       (alistGet raw "topic").isSome ∧ (alistGet raw "name").isSome ∧
       (alistGet raw "data").isSome)) ∧
    (∀ raw : Dict, (Response.decode raw).isSome ↔
      ((Message.decode raw).isSome ∧ ((alistGet raw "status").bind JVal.toInt).isSome)) ∧
    (∀ (s : ServiceBase) (message : Dict) (ty : JVal),
      alistGet message "type" = some ty →
      JVal.beq ty (JVal.str "request") = false →
      JVal.beq ty (JVal.str "report") = false →
      JVal.beq ty (JVal.str "response") = false →
      s.message_handler "message" message = ⟨s, [], false⟩) := by
  refine ⟨?_, ?_, ?_⟩
  · intro raw
    unfold Message.decode
    cases alistGet raw "id" <;> cases alistGet raw "origin" <;> cases alistGet raw "topic" <;>
      cases alistGet raw "name" <;> cases alistGet raw "data" <;> simp
  · intro raw
    unfold Response.decode
    cases h : Message.decode raw with
    | none => simp
    | some m => cases hs : (alistGet raw "status").bind JVal.toInt <;> simp [hs]
  · intro s message ty hty h1 h2 h3
    simp [ServiceBase.message_handler, hty, h1, h2, h3]

/-- Witness for the amended C4: an unknown kind tag is silently ignored. -/
theorem decode_failure_characterization_witness :
    ServiceBase.message_handler {} "message" [("type", JVal.str "bogus")] = ⟨{}, [], false⟩ :=
  decode_failure_characterization.2.2 {} [("type", JVal.str "bogus")] (JVal.str "bogus")
    rfl rfl rfl rfl

/-- Claim C5 counterexample: encoding the Report (topic monitoring, name
temperature, data 22) yields a dict without id, which the decoder
rejects: Decode(Encode(E)) fails instead of reproducing E. -/
theorem encoded_report_fails_round_trip :
    Message.decode (ServiceBase.report_payload {} "monitoring" "temperature" (JVal.num 22)) =
      none := rfl

/-- Claim C5 amended: the wire encoders are not inverses of the decoders.
An encoded Report omits the id the decoder requires, so every Report
round trip fails; an encoded Request omits data when its payload is None
(so that round trip fails too) and always carries the literal kind tag
report, so a Request with a payload round-trips only through the common
header decoder — with id, origin, topic, name and data preserved — while
being routed as a Report; an encoded Response omits the status its
decoder requires, so every Response round trip fails. -/
theorem encode_decode_mismatch :
    (∀ (s : ServiceBase) (topic name : String) (payload : JVal),
      Message.decode (s.report_payload topic name payload) = none) ∧
    (∀ (s : ServiceBase) (rid : JVal) (topic name : String),
      Message.decode (s.request_payload rid topic name none) = none) ∧
    (∀ (s : ServiceBase) (rid : JVal) (topic name : String) (payload : JVal),
      alistGet (s.request_payload rid topic name (some payload)) "type" =
        some (JVal.str "report") ∧
      Message.decode (s.request_payload rid topic name (some payload)) =
        some ⟨rid, JVal.str s.service_name, JVal.str topic, JVal.str name, payload⟩) ∧
    (∀ (s : ServiceBase) (req : Request) (payload : Option JVal),
      Response.decode (s.response_payload req payload) = none) := by
  refine ⟨?_, ?_, ?_, ?_⟩
  · intro s topic name payload
    simp [ServiceBase.report_payload, Message.decode, alistGet]
  · intro s rid topic name
    simp [ServiceBase.request_payload, Message.decode, alistGet]
  · intro s rid topic name payload
    constructor
    · simp [ServiceBase.request_payload, alistGet]
    · simp [ServiceBase.request_payload, Message.decode, alistGet]
  · intro s req payload
    cases payload <;>
      simp [ServiceBase.response_payload, Response.decode, Message.decode, alistGet]

/-- Claim C6 counterexample: a request-typed delivery missing its header
fields makes the dispatch entry point raise the decode error to its
caller (raised = true) instead of returning normally — the claim's
does-not-crash part fails on the code. -/
theorem malformed_delivery_raises :
    ServiceBase.message_handler {} "message"
      [("type", JVal.str "request"), ("topic", JVal.str "t")] = ⟨{}, [], true⟩ := rfl

/-- Claim C6 amended: on a delivery whose payload is malformed (missing
kind tag, or failing the decoder of its kind) the dispatcher publishes
nothing, invokes no handler or callback, and changes no state — but the
decode error propagates to the caller of the entry point instead of
being caught and dropped. -/
theorem malformed_delivery_no_effects_but_raises (s : ServiceBase) (message : Dict) :
    (alistGet message "type" = none →
      s.message_handler "message" message = ⟨s, [], true⟩) ∧
    (alistGet message "type" = some (JVal.str "request") → Message.decode message = none →
      s.message_handler "message" message = ⟨s, [], true⟩) ∧
    (alistGet message "type" = some (JVal.str "report") → Message.decode message = none →
      s.message_handler "message" message = ⟨s, [], true⟩) ∧
    (alistGet message "type" = some (JVal.str "response") → Response.decode message = none →
      s.message_handler "message" message = ⟨s, [], true⟩) := by
  refine ⟨?_, ?_, ?_, ?_⟩
  · intro hty
    simp [ServiceBase.message_handler, hty]
  · intro hty hdec
    simp [ServiceBase.message_handler, JVal.beq, hty, hdec]
  · intro hty hdec
    simp [ServiceBase.message_handler, JVal.beq, hty, hdec]
  · intro hty hdec
    simp [ServiceBase.message_handler, JVal.beq, hty, hdec]

/-- Witness for the amended C6: an incomplete response-typed payload. -/
theorem malformed_delivery_no_effects_but_raises_witness :
    ServiceBase.message_handler {} "message"
      [("type", JVal.str "response"), ("id", JVal.str "x")] = ⟨{}, [], true⟩ :=
  (malformed_delivery_no_effects_but_raises {}
    [("type", JVal.str "response"), ("id", JVal.str "x")]).2.2.2 rfl rfl

/-- Claim C10: every response dict the dispatcher builds for a handled
request has exactly the keys id, type, topic, name, origin — plus data
exactly when the handler returned a payload — and in particular never a
status or error key; consequently this program's own Response decoder,
which demands an integer status, rejects every response the program
itself produces. -/
theorem own_responses_lack_status (s : ServiceBase) (req : Request) (payload : Option JVal) :
    (s.response_payload req payload).map Prod.fst =
      (["id", "type", "topic", "name", "origin"] ++
        match payload with | some _ => ["data"] | none => []) ∧
    Response.decode (s.response_payload req payload) = none := by
  cases payload <;>
    simp [ServiceBase.response_payload, Response.decode, Message.decode, alistGet]
